import Mathlib

/-!
Shallow embedding of `Weather_Monitor.py`: a single fetch → filter →
aggregate → render pipeline over weather warnings for six German cities.

Python strings become `String`, dicts with optional keys become structures
with `Option` fields, the stochastic sample generator takes its random
choices as explicit function arguments, and the `matplotlib` branch taken
by the reporter is modelled as a value of an enumeration (`ChartPath`).
-/

namespace WeatherMonitor

/-- The fixed list of target cities (`target_cities` in the source). -/
def target_cities : List String :=
  ["Berlin", "München", "Hamburg", "Dresden", "Stuttgart", "Nürnberg"]

/-- Lower-casing of a single character, as Python's `str.lower` acts on the
characters appearing in this program: ASCII letters plus the German umlauts
used in the city names and keywords. -/
def pyLowerChar (c : Char) : Char :=
  if 'A' ≤ c ∧ c ≤ 'Z' then Char.ofNat (c.toNat + 32)
  else if c = 'Ä' then 'ä'
  else if c = 'Ö' then 'ö'
  else if c = 'Ü' then 'ü'
  else c

/-- Python's `str.lower`, restricted to the character set this program uses. -/
def pyLower (s : String) : String := ⟨s.data.map pyLowerChar⟩

/-- `needle` is a prefix of `hay` (character lists). -/
def startsWithList : List Char → List Char → Bool
  | [], _ => true
  | _ :: _, [] => false
  | a :: as, b :: bs => a == b && startsWithList as bs

/-- `needle` occurs contiguously somewhere in `hay` (character lists):
Python's `needle in hay` on strings. -/
def containsList : List Char → List Char → Bool
  | [], needle => startsWithList needle []
  | h :: t, needle => startsWithList needle (h :: t) || containsList t needle

/-- Python's substring test `needle in hay`. -/
def containsSub (hay needle : String) : Bool := containsList hay.data needle.data

/-- A raw alert from the live feed (`item` in the processing loop); every
field the code reads may be absent, hence `Option`. `i18nTitle_de` stands
for `item['i18nTitle']['de']`, present only when both keys are. -/
structure RawAlert where
  i18nTitle_de : Option String
  name : Option String
  region : Option String
  area : Option String
  severity : Option String
  type : Option String
  urgency : Option String
deriving DecidableEq, Repr

/-- A normalized warning record as appended to `records`: sample records
carry a `Date` and no `Title`, live records a `Title` and no `Date`. -/
structure NormalizedWarning where
  region : String
  severity : String
  score : Nat
  type : String
  urgency : String
  title : Option String := none
  date : Option String := none
deriving DecidableEq, Repr

/-- The `severity_map` dict literal of the source. -/
def severity_map : List (String × Nat) :=
  [("minor", 1), ("moderate", 2), ("severe", 3), ("extreme", 4)]

/-- `severity_map.get(severity.lower(), 0)`: the severity label is
lower-cased, looked up in the fixed table, and unmapped labels score 0. -/
def scoreOf (severity : String) : Nat :=
  ((severity_map.lookup (pyLower severity)).getD 0)

/-- The fixed keyword list `weather_keywords` of the source
(`'gewitter'` appears twice there; the duplicate is kept). -/
def weather_keywords : List String :=
  ["wetter", "sturm", "regen", "gewitter", "schnee", "eis",
   "glätte", "hitze", "frost", "wind", "orkan", "unwetter",
   "niederschlag", "gewitter", "hagel", "nebel", "glatteis"]

/-- `any(keyword in title for keyword in weather_keywords)` applied to the
lower-cased title. -/
def isWeatherTitle (title : String) : Bool :=
  weather_keywords.any (fun k => containsSub (pyLower title) k)

/-- Region resolution: first present of `name`, `region`, `area`, with
default `"Unknown"`. -/
def regionOf (item : RawAlert) : String :=
  match item.name with
  | some n => n
  | none =>
    match item.region with
    | some r => r
    | none =>
      match item.area with
      | some a => a
      | none => "Unknown"

/-- `matched_city`: the first target city whose lower-cased name is a
substring of the lower-cased region. -/
def matched_city (region : String) : Option String :=
  target_cities.find? (fun city => containsSub (pyLower region) (pyLower city))

/-- Outcome of the per-item live processing loop body: the item is skipped
for lack of a title, skipped as non-weather (counted in
`other_alerts_found`), counted as weather but discarded for matching no
target city, or emitted as a record (also counted as weather). -/
inductive ItemResult where
  | noTitle : ItemResult
  | nonWeather : ItemResult
  | noCityMatch : ItemResult
  | emitted : NormalizedWarning → ItemResult
deriving DecidableEq, Repr

/-- The body of the live processing loop for one raw alert. -/
def processItem (item : RawAlert) : ItemResult :=
  match item.i18nTitle_de with
  | none => ItemResult.noTitle
  | some rawTitle =>
    let title := pyLower rawTitle
    if isWeatherTitle rawTitle then
      match matched_city (regionOf item) with
      | none => ItemResult.noCityMatch
      | some city =>
        let severity := item.severity.getD "minor"
        ItemResult.emitted
          { region := city
            severity := severity
            score := scoreOf severity
            type := item.type.getD "Unknown"
            urgency := item.urgency.getD "Unknown"
            title := some title }
    else ItemResult.nonWeather

/-- The result increments `weather_alerts_found`. -/
def isWeatherResult : ItemResult → Bool
  | ItemResult.noCityMatch => true
  | ItemResult.emitted _ => true
  | _ => false

/-- The result increments `other_alerts_found`. -/
def isOtherResult : ItemResult → Bool
  | ItemResult.nonWeather => true
  | _ => false

/-- The `records` list produced by the live processing loop. -/
def live_records (raw : List RawAlert) : List NormalizedWarning :=
  raw.filterMap (fun item =>
    match processItem item with
    | ItemResult.emitted w => some w
    | _ => none)

/-- `weather_alerts_found` after the live processing loop. -/
def weather_alerts_found (raw : List RawAlert) : Nat :=
  (raw.filter (fun item => isWeatherResult (processItem item))).length

/-- `other_alerts_found` after the live processing loop. -/
def other_alerts_found (raw : List RawAlert) : Nat :=
  (raw.filter (fun item => isOtherResult (processItem item))).length

/-- One entry of the sample event catalog `weather_events`. -/
structure WeatherEvent where
  type : String
  severity : String
  score : Nat
  urgency : String
deriving DecidableEq, Repr

/-- The fixed catalog of seven sample weather events. -/
def weather_events : List WeatherEvent :=
  [⟨"Thunderstorm Warning", "severe", 3, "Immediate"⟩,
   ⟨"Heavy Rain Warning", "moderate", 2, "Expected"⟩,
   ⟨"Heat Wave Warning", "extreme", 4, "Immediate"⟩,
   ⟨"Strong Wind Warning", "moderate", 2, "Expected"⟩,
   ⟨"Frost Warning", "minor", 1, "Future"⟩,
   ⟨"Storm Warning", "extreme", 4, "Immediate"⟩,
   ⟨"Snow Warning", "moderate", 2, "Expected"⟩]

/-- `create_sample_weather_data`: for each target city the generator draws
`np.random.random() > 0.4` (modelled by `warnFlag city`) and, when true,
picks `weather_events[np.random.randint(0, 7)]` (modelled by `pick city`,
always in range as `randint` is). `today` stands for
`datetime.now().strftime('%Y-%m-%d')`. -/
def create_sample_weather_data (today : String) (warnFlag : String → Bool)
    (pick : String → Fin 7) : List NormalizedWarning :=
  target_cities.filterMap (fun city =>
    if warnFlag city then
      let event := weather_events.getD (pick city).val
        ⟨"Thunderstorm Warning", "severe", 3, "Immediate"⟩
      some { region := city
             severity := event.severity
             score := event.score
             type := event.type
             urgency := event.urgency
             date := some today }
    else none)

/-! ### Aggregator

`severity_summary = df.groupby("Region")["Score"].sum()` sums the `Score`
column per distinct `Region` value; the loop that follows inserts a zero
entry for each target city absent from the index, and
`reindex(target_cities)` selects exactly the target cities, in the fixed
order, each with its stored value. -/

/-- Total score of the records of one region: the per-group sum computed by
`groupby("Region")["Score"].sum()`. -/
def regionScore (records : List NormalizedWarning) (city : String) : Nat :=
  ((records.filter (fun w => w.region == city)).map (fun w => w.score)).sum

/-- The distinct regions occurring in `records` (the groupby index). -/
def groupRegions (records : List NormalizedWarning) : List String :=
  records.foldl (fun acc w => if w.region ∈ acc then acc else acc ++ [w.region]) []

/-- `df.groupby("Region")["Score"].sum()` as an association list. -/
def groupby_sum (records : List NormalizedWarning) : List (String × Nat) :=
  (groupRegions records).map (fun r => (r, regionScore records r))

/-- The loop `for city in target_cities: if city not in severity_summary.index:
severity_summary[city] = 0`. -/
def ensure_cities (s : List (String × Nat)) : List (String × Nat) :=
  s ++ (target_cities.filter (fun c => (s.lookup c).isNone)).map (fun c => (c, 0))

/-- `severity_summary.reindex(target_cities)` applied after the zero-filling
loop: one entry per target city, in the fixed order. (After `ensure_cities`
every target city has an entry, so the `getD 0` default is never the value
actually used.) -/
def severity_summary (records : List NormalizedWarning) : List (String × Nat) :=
  target_cities.map (fun c => (c, ((ensure_cities (groupby_sum records)).lookup c).getD 0))

/-! ### Reporter and fetch -/

/-- The two rendering paths of the reporter: the `df.empty` branch draws the
flat light-green "all clear" chart with the overlay text; the other branch
draws the per-city chart with crimson/light-green bars. -/
inductive ChartPath where
  | allClear : ChartPath
  | perCity : ChartPath
deriving DecidableEq, Repr

/-- Which chart the reporter draws. `df` is built from `records` and
`df.empty` holds exactly when `records` is the empty list. -/
def chartPath (records : List NormalizedWarning) : ChartPath :=
  if records.isEmpty then ChartPath.allClear else ChartPath.perCity

/-- Outcome of the single GET request in `fetch_live_data`: a decoded JSON
body, or one of the exceptional outcomes the `try` block can raise
(`requests.exceptions.RequestException` covers connection errors, timeouts
and the `raise_for_status` error on a non-success HTTP status;
`json.JSONDecodeError` covers an undecodable body). -/
inductive FetchOutcome where
  | success : List RawAlert → FetchOutcome
  | networkFailure : FetchOutcome
  | timeoutExpired : FetchOutcome
  | httpError : Nat → FetchOutcome
  | malformedJson : FetchOutcome
deriving DecidableEq, Repr

/-- `fetch_live_data`: returns the decoded body on success and the empty
list on every caught exception; it never re-raises. -/
def fetch_live_data : FetchOutcome → List RawAlert
  | FetchOutcome.success data => data
  | FetchOutcome.networkFailure => []
  | FetchOutcome.timeoutExpired => []
  | FetchOutcome.httpError _ => []
  | FetchOutcome.malformedJson => []

/-- The reduced keyword list used only by the final "sample of non-weather
alerts" display (lines 252-259): note it has five keywords, not the
seventeen of the filter stage. -/
def sample_filter_keywords : List String :=
  ["wetter", "sturm", "regen", "gewitter", "schnee"]

/-- The alerts printed by the "SAMPLE OF NON-WEATHER ALERTS (FILTERED OUT)"
section: shown only when the raw data is non-empty and `other_alerts_found`
is positive, and drawn from the first two raw items, keeping those with a
title that contains none of the five reduced keywords. -/
def filtered_out_sample (raw_data : List RawAlert) (other_count : Nat) :
    List RawAlert :=
  if 0 < raw_data.length ∧ 0 < other_count then
    (raw_data.take 2).filter (fun item =>
      match item.i18nTitle_de with
      | some t => !(sample_filter_keywords.any (fun k => containsSub (pyLower t) k))
      | none => false)
  else []

/-! ### Helper lemmas -/

/-- Looking up a key in an association list built by tagging each element of
`l` with `f` finds `f c` exactly when `c ∈ l`. -/
theorem lookup_map_self (l : List String) (f : String → Nat) (c : String) :
    (l.map (fun r => (r, f r))).lookup c = if c ∈ l then some (f c) else none := by
  induction l with
  | nil => simp [List.lookup]
  | cons h t ih =>
    by_cases hc : c = h
    · subst hc; simp [List.lookup]
    · have hb : (c == h) = false := beq_false_of_ne hc
      simp only [List.map_cons, List.lookup, hb, ih, List.mem_cons]
      simp [hc]

/-- Lookup distributes over append, preferring the left list. -/
theorem lookup_append (s t : List (String × Nat)) (c : String) :
    (s ++ t).lookup c = ((s.lookup c).orElse (fun _ => t.lookup c)) := by
  induction s with
  | nil => simp [List.lookup]
  | cons h s ih =>
    by_cases hc : c = h.1
    · simp [List.lookup, hc]
    · have hb : (c == h.1) = false := beq_false_of_ne hc
      simp [List.lookup, hb, ih]

/-- Membership in the groupby index: a region appears there exactly when
some record has it. -/
theorem mem_groupRegions (records : List NormalizedWarning) (r : String) :
    r ∈ groupRegions records ↔ ∃ w ∈ records, w.region = r := by
  have key : ∀ (l : List NormalizedWarning) (acc : List String),
      r ∈ l.foldl (fun acc w => if w.region ∈ acc then acc else acc ++ [w.region]) acc ↔
        r ∈ acc ∨ ∃ w ∈ l, w.region = r := by
    intro l
    induction l with
    | nil => simp
    | cons w l ih =>
      intro acc
      simp only [List.foldl_cons, ih]
      by_cases hw : w.region ∈ acc
      · simp only [hw, if_true]
        constructor
        · rintro (h | ⟨x, hx, hxr⟩)
          · exact Or.inl h
          · exact Or.inr ⟨x, List.mem_cons_of_mem _ hx, hxr⟩
        · rintro (h | ⟨x, hx, hxr⟩)
          · exact Or.inl h
          · rcases List.mem_cons.mp hx with he | he
            · subst he; exact Or.inl (hxr ▸ hw)
            · exact Or.inr ⟨x, he, hxr⟩
      · simp only [hw, if_false]
        constructor
        · rintro (h | ⟨x, hx, hxr⟩)
          · rcases List.mem_append.mp h with h | h
            · exact Or.inl h
            · exact Or.inr ⟨w, List.mem_cons_self _ _, (List.mem_singleton.mp h).symm⟩
          · exact Or.inr ⟨x, List.mem_cons_of_mem _ hx, hxr⟩
        · rintro (h | ⟨x, hx, hxr⟩)
          · exact Or.inl (List.mem_append.mpr (Or.inl h))
          · rcases List.mem_cons.mp hx with he | he
            · subst he; exact Or.inl (List.mem_append.mpr (Or.inr (by simp [hxr])))
            · exact Or.inr ⟨x, he, hxr⟩
  rw [groupRegions, key]
  simp

/-- A region with no records sums to zero. -/
theorem regionScore_eq_zero (records : List NormalizedWarning) (c : String)
    (h : ∀ w ∈ records, w.region ≠ c) : regionScore records c = 0 := by
  rw [regionScore]
  have : records.filter (fun w => w.region == c) = [] := by
    rw [List.filter_eq_nil_iff]
    intro w hw
    simpa using h w hw
  rw [this]
  rfl

/-- The groupby + zero-fill + reindex composite computes, for each target
city, the sum of the scores of its records. -/
theorem severity_summary_eq (records : List NormalizedWarning) :
    severity_summary records =
      target_cities.map (fun c => (c, regionScore records c)) := by
  rw [severity_summary]
  apply List.map_congr_left
  intro c hc
  have hlook : (groupby_sum records).lookup c =
      if c ∈ groupRegions records then some (regionScore records c) else none := by
    rw [groupby_sum, lookup_map_self]
  by_cases hmem : c ∈ groupRegions records
  · rw [ensure_cities, lookup_append, hlook, if_pos hmem]
    rfl
  · have hnone : (groupby_sum records).lookup c = none := by rw [hlook, if_neg hmem]
    have hzero : regionScore records c = 0 := by
      apply regionScore_eq_zero
      intro w hw hr
      exact hmem ((mem_groupRegions records c).mpr ⟨w, hw, hr⟩)
    rw [ensure_cities, lookup_append, hnone]
    have hfilt : c ∈ target_cities.filter (fun x => ((groupby_sum records).lookup x).isNone) := by
      rw [List.mem_filter]
      exact ⟨hc, by rw [hnone]; rfl⟩
    have : ((target_cities.filter (fun x => ((groupby_sum records).lookup x).isNone)).map
        (fun x => (x, (0 : Nat)))).lookup c = some 0 := by
      rw [lookup_map_self, if_pos hfilt]
    simp [Option.orElse, this, hzero]

/-- Pointwise addition under a summed map splits. -/
theorem sum_map_split (l : List String) (f g : String → Nat) :
    (l.map (fun c => f c + g c)).sum = (l.map f).sum + (l.map g).sum := by
  induction l with
  | nil => rfl
  | cons h t ih => simp [ih]; omega

/-- Summing an indicator over a duplicate-free list containing `r` gives the
indicated value. -/
theorem sum_indicator (cities : List String) (r : String) (v : Nat)
    (hmem : r ∈ cities) (hnd : cities.Nodup) :
    (cities.map (fun c => if r = c then v else 0)).sum = v := by
  induction cities with
  | nil => cases hmem
  | cons h t ih =>
    rcases List.mem_cons.mp hmem with hr | hr
    · subst hr
      have : ∀ c ∈ t, (if r = c then v else 0) = 0 := by
        intro c hcmem
        have : r ≠ c := fun he => (List.nodup_cons.mp hnd).1 (he ▸ hcmem)
        simp [this]
      simp [List.map_cons, List.sum_cons]
      rw [List.map_congr_left this]
      simp
    · have hne : r ≠ h := fun he => (List.nodup_cons.mp hnd).1 (he ▸ hr)
      simp [List.map_cons, List.sum_cons, hne,
        ih hr (List.nodup_cons.mp hnd).2]

/-- Prepending a record adds its score to its own region and nothing
elsewhere. -/
theorem regionScore_cons (w : NormalizedWarning) (rs : List NormalizedWarning)
    (c : String) :
    regionScore (w :: rs) c = (if w.region = c then w.score else 0) + regionScore rs c := by
  rw [regionScore, regionScore, List.filter_cons]
  by_cases h : w.region = c
  · simp [h]
  · simp [h]

/-- `find?` returns the first element satisfying the predicate: the list
splits at it and everything earlier fails the predicate. -/
theorem find?_first {α : Type} (p : α → Bool) :
    ∀ (l : List α) (a : α), l.find? p = some a →
      ∃ l1 l2, l = l1 ++ a :: l2 ∧ p a = true ∧ ∀ b ∈ l1, p b = false := by
  intro l
  induction l with
  | nil => intro a h; cases h
  | cons h t ih =>
    intro a hfind
    by_cases hp : p h = true
    · rw [List.find?_cons_of_pos _ hp] at hfind
      exact ⟨[], t, by simpa using (Option.some_inj.mp hfind) ▸ rfl, by
        cases Option.some_inj.mp hfind; exact ⟨hp, by simp⟩⟩
    · have hp' : p h = false := by simpa using hp
      rw [List.find?_cons_of_neg _ (by simp [hp'])] at hfind
      obtain ⟨l1, l2, heq, hpa, hall⟩ := ih a hfind
      exact ⟨h :: l1, l2, by simp [heq], hpa, by
        intro b hb
        rcases List.mem_cons.mp hb with hb | hb
        · subst hb; exact hp'
        · exact hall b hb⟩

/-- Summing the per-region scores over a duplicate-free list of cities that
covers every record's region recovers the total score of the records. -/
theorem sum_regionScore (cities : List String) (hnd : cities.Nodup) :
    ∀ records : List NormalizedWarning, (∀ w ∈ records, w.region ∈ cities) →
      (cities.map (fun c => regionScore records c)).sum =
        (records.map (fun w => w.score)).sum := by
  intro records
  induction records with
  | nil =>
    intro _
    simp [regionScore]
  | cons w rs ih =>
    intro h
    have hmap : cities.map (fun c => regionScore (w :: rs) c) =
        cities.map (fun c => (if w.region = c then w.score else 0) + regionScore rs c) :=
      List.map_congr_left (fun c _ => regionScore_cons w rs c)
    rw [hmap, sum_map_split, sum_indicator cities w.region w.score (h w (by simp)) hnd,
      ih (fun x hx => h x (by simp [hx]))]
    simp

/-! ### Claims -/

/-- C1, counterexample: the claim says the case variant `"Minor"` scores 0,
but the code lower-cases the label before the lookup, so `"Minor"` scores 1. -/
theorem c1_case_variant_counterexample :
    scoreOf "Minor" = 1 ∧ ¬ scoreOf "Minor" = 0 := by decide

/-- C1 (amended): the severity mapping sends `minor, moderate, severe,
extreme` to 1-4, is case-insensitive — case variants such as `"Minor"` and
`"EXTREME"` also receive their label's score — and every label whose
lower-cased form is not one of the four receives 0. -/
theorem c1_severity_map_amended :
    (scoreOf "minor" = 1 ∧ scoreOf "moderate" = 2 ∧ scoreOf "severe" = 3 ∧
     scoreOf "extreme" = 4 ∧ scoreOf "Minor" = 1 ∧ scoreOf "EXTREME" = 4)
    ∧ ∀ s : String,
        pyLower s ∉ (["minor", "moderate", "severe", "extreme"] : List String) →
        scoreOf s = 0 := by
  refine ⟨by decide, ?_⟩
  intro s hs
  simp only [List.mem_cons, List.not_mem_nil, or_false] at hs
  push_neg at hs
  obtain ⟨h1, h2, h3, h4⟩ := hs
  rw [scoreOf, severity_map]
  simp [List.lookup, beq_false_of_ne h1, beq_false_of_ne h2,
    beq_false_of_ne h3, beq_false_of_ne h4]

/-- C1 witness: a label that is no case variant of the four scores 0. -/
theorem c1_severity_map_amended_witness : scoreOf "cancel" = 0 :=
  c1_severity_map_amended.2 "cancel" (by decide)

/-- C2, counterexample: a live record whose severity label is unmapped is
emitted with score 0; a run consisting of that single record has an
all-zero aggregate for every target city, yet the reporter takes the
per-city chart branch, because the branch tests `df.empty` (no records),
not the aggregate. -/
theorem c2_all_zero_counterexample :
    processItem ⟨some "Sturm", some "Berlin", none, none, some "Unknown", none, none⟩ =
      ItemResult.emitted ⟨"Berlin", "Unknown", 0, "Unknown", "Unknown", some "sturm", none⟩
    ∧ ((severity_summary
          [⟨"Berlin", "Unknown", 0, "Unknown", "Unknown", some "sturm", none⟩]).all
        (fun p => p.2 == 0)) = true
    ∧ chartPath [⟨"Berlin", "Unknown", 0, "Unknown", "Unknown", some "sturm", none⟩] =
        ChartPath.perCity := by decide

/-- C2 (amended): the reporter takes the "all clear" rendering path exactly
when the run produced no normalized warning records; an all-zero aggregate
arising from zero-score records takes the per-city path instead. -/
theorem c2_all_clear_amended :
    ∀ records : List NormalizedWarning,
      chartPath records = ChartPath.allClear ↔ records = [] := by
  intro records
  cases records <;> simp [chartPath]

/-- C2 amended witness: the empty run takes the all-clear path. -/
theorem c2_all_clear_amended_witness : chartPath [] = ChartPath.allClear :=
  (c2_all_clear_amended []).mpr rfl

/-- C3: the aggregate has exactly one entry per target city, in the fixed
target-city order; a city with no warnings gets a zero entry; the empty
input yields the all-zero aggregate rather than an error. -/
theorem c3_aggregate_shape :
    (∀ records : List NormalizedWarning,
        (severity_summary records).map Prod.fst = target_cities)
    ∧ (∀ records : List NormalizedWarning, ∀ c ∈ target_cities,
        (∀ w ∈ records, w.region ≠ c) → (c, 0) ∈ severity_summary records)
    ∧ severity_summary [] = target_cities.map (fun c => (c, 0)) := by
  refine ⟨?_, ?_, by decide⟩
  · intro records
    have hid : (Prod.fst ∘ fun c => (c, regionScore records c)) = id := rfl
    rw [severity_summary_eq, List.map_map, hid, List.map_id]
  · intro records c hc h
    rw [severity_summary_eq]
    have : (c, regionScore records c) ∈
        target_cities.map (fun c => (c, regionScore records c)) :=
      List.mem_map_of_mem _ hc
    rwa [regionScore_eq_zero records c h] at this

/-- C3 witness: in the empty run, Berlin appears with a zero entry. -/
theorem c3_aggregate_shape_witness :
    ((0 : Nat) < 1 ∧ ("Berlin", 0) ∈ severity_summary []) :=
  ⟨by decide, c3_aggregate_shape.2.1 [] "Berlin" (by decide) (by simp)⟩

/-- C4: when every record's region is a target city, the per-city totals of
the aggregate sum to the total score of the input records. -/
theorem c4_score_conservation (records : List NormalizedWarning)
    (h : ∀ w ∈ records, w.region ∈ target_cities) :
    ((severity_summary records).map Prod.snd).sum =
      (records.map (fun w => w.score)).sum := by
  rw [severity_summary_eq]
  have hnd : target_cities.Nodup := by decide
  have := sum_regionScore target_cities hnd records h
  simpa [List.map_map, Function.comp] using this

/-- C4 witness: conservation at a concrete two-record run. -/
theorem c4_score_conservation_witness :
    ((severity_summary
        [⟨"Berlin", "severe", 3, "Storm Warning", "Immediate", none, none⟩,
         ⟨"Hamburg", "minor", 1, "Frost Warning", "Future", none, none⟩]).map Prod.snd).sum =
      (([⟨"Berlin", "severe", 3, "Storm Warning", "Immediate", none, none⟩,
         ⟨"Hamburg", "minor", 1, "Frost Warning", "Future", none, none⟩] :
          List NormalizedWarning).map (fun w => w.score)).sum :=
  c4_score_conservation _ (by decide)

/-- C5, counterexample: with raw data `[Hagelwarnung-alert,
Schweinepest-alert]` the filter stage classifies the hail alert as weather
and only the swine-fever alert as non-weather (`other_alerts_found = 1`),
yet the "filtered out" display — which scans the first two raw items
against a reduced five-keyword list that lacks `hagel` — prints the hail
alert, an alert the filter classified as weather-related. -/
theorem c5_sample_display_counterexample :
    other_alerts_found
        [⟨some "Hagelwarnung", some "Berlin", none, none, some "severe", none, none⟩,
         ⟨some "Afrikanische Schweinepest", some "Berlin", none, none,
           some "severe", none, none⟩] = 1
    ∧ (⟨some "Hagelwarnung", some "Berlin", none, none, some "severe", none, none⟩ :
          RawAlert) ∈
        filtered_out_sample
          [⟨some "Hagelwarnung", some "Berlin", none, none, some "severe", none, none⟩,
           ⟨some "Afrikanische Schweinepest", some "Berlin", none, none,
             some "severe", none, none⟩] 1
    ∧ isWeatherResult (processItem
        ⟨some "Hagelwarnung", some "Berlin", none, none, some "severe", none, none⟩) =
        true := by
  decide

/-- C5 (amended): the "filtered out" display prints at most two alerts,
drawn from the first two raw alerts of the feed (not from the filtered-out
ones), each having a title containing none of a reduced five-keyword list;
the printed alerts need not have been classified non-weather by the filter
stage. -/
theorem c5_sample_display_amended (raw : List RawAlert) (n : Nat) :
    (filtered_out_sample raw n).length ≤ 2
    ∧ ∀ item ∈ filtered_out_sample raw n,
        item ∈ raw.take 2
        ∧ ∃ t, item.i18nTitle_de = some t
            ∧ sample_filter_keywords.any (fun k => containsSub (pyLower t) k) = false := by
  rw [filtered_out_sample]
  by_cases hc : 0 < raw.length ∧ 0 < n
  · rw [if_pos hc]
    constructor
    · calc ((raw.take 2).filter _).length ≤ (raw.take 2).length :=
          List.length_filter_le _ _
        _ ≤ 2 := List.length_take_le 2 raw
    · intro item hmem
      have hm := List.mem_filter.mp hmem
      refine ⟨hm.1, ?_⟩
      have hpred := hm.2
      rcases hti : item.i18nTitle_de with _ | t
      · rw [hti] at hpred
        simp at hpred
      · refine ⟨t, rfl, ?_⟩
        rw [hti] at hpred
        simpa using hpred
  · rw [if_neg hc]
    simp

/-- C5 amended witness: the hail alert is printed from the first two raw
items and its title lacks all five reduced keywords. -/
theorem c5_sample_display_amended_witness :
    (⟨some "Hagelwarnung", some "Berlin", none, none, some "severe", none, none⟩ :
        RawAlert) ∈
      ([⟨some "Hagelwarnung", some "Berlin", none, none, some "severe", none, none⟩,
        ⟨some "Afrikanische Schweinepest", some "Berlin", none, none,
          some "severe", none, none⟩] : List RawAlert).take 2
    ∧ ∃ t, (⟨some "Hagelwarnung", some "Berlin", none, none, some "severe", none,
          none⟩ : RawAlert).i18nTitle_de = some t
        ∧ sample_filter_keywords.any (fun k => containsSub (pyLower t) k) = false :=
  (c5_sample_display_amended
      [⟨some "Hagelwarnung", some "Berlin", none, none, some "severe", none, none⟩,
       ⟨some "Afrikanische Schweinepest", some "Berlin", none, none,
         some "severe", none, none⟩] 1).2
    ⟨some "Hagelwarnung", some "Berlin", none, none, some "severe", none, none⟩
    (by decide)

/-- C6: every exceptional fetch outcome — network failure, timeout, or a
non-success HTTP status such as 500 — yields the empty sequence without
raising, and the live pipeline then produces no records and reports zero
weather alerts found. -/
theorem c6_fetch_soft_failure :
    ∀ code : Nat,
      fetch_live_data FetchOutcome.networkFailure = []
      ∧ fetch_live_data FetchOutcome.timeoutExpired = []
      ∧ fetch_live_data (FetchOutcome.httpError code) = []
      ∧ live_records (fetch_live_data (FetchOutcome.httpError code)) = []
      ∧ weather_alerts_found (fetch_live_data (FetchOutcome.httpError code)) = 0
      ∧ chartPath (live_records (fetch_live_data (FetchOutcome.httpError code))) =
          ChartPath.allClear := by
  intro code
  exact ⟨rfl, rfl, rfl, rfl, rfl, rfl⟩

/-- C6 witness: the soft-failure behavior at HTTP status 500. -/
theorem c6_fetch_soft_failure_witness :
    fetch_live_data (FetchOutcome.httpError 500) = []
    ∧ weather_alerts_found (fetch_live_data (FetchOutcome.httpError 500)) = 0 :=
  ⟨(c6_fetch_soft_failure 500).2.2.1, (c6_fetch_soft_failure 500).2.2.2.2.1⟩

/-- Every event of the sample catalog carries the score the severity
mapping assigns to its severity label. -/
theorem weather_events_consistent :
    ∀ i : Fin 7,
      (weather_events.getD i.val
          ⟨"Thunderstorm Warning", "severe", 3, "Immediate"⟩).score =
        scoreOf (weather_events.getD i.val
          ⟨"Thunderstorm Warning", "severe", 3, "Immediate"⟩).severity := by
  decide

/-- C7: every record emitted by the sample generator (for any random draw)
or by the live filter/normalizer has a target city as its region and a
score equal to the fixed severity mapping applied to its severity label. -/
theorem c7_invariant :
    (∀ (today : String) (warnFlag : String → Bool) (pick : String → Fin 7),
        ∀ w ∈ create_sample_weather_data today warnFlag pick,
          w.region ∈ target_cities ∧ w.score = scoreOf w.severity)
    ∧ (∀ (item : RawAlert) (w : NormalizedWarning),
        processItem item = ItemResult.emitted w →
          w.region ∈ target_cities ∧ w.score = scoreOf w.severity) := by
  constructor
  · intro today warnFlag pick w hw
    rw [create_sample_weather_data] at hw
    obtain ⟨city, hcity, hsome⟩ := List.mem_filterMap.mp hw
    by_cases hf : warnFlag city = true
    · simp only [hf, if_true, Option.some_inj] at hsome
      subst hsome
      exact ⟨hcity, weather_events_consistent (pick city)⟩
    · simp [hf] at hsome
  · intro item w hem
    rw [processItem] at hem
    rcases hti : item.i18nTitle_de with _ | rawTitle
    · rw [hti] at hem; cases hem
    · rw [hti] at hem
      by_cases hwk : isWeatherTitle rawTitle = true
      · simp only [hwk, if_true] at hem
        rcases hmc : matched_city (regionOf item) with _ | city
        · rw [hmc] at hem; cases hem
        · rw [hmc] at hem
          injection hem with hw
          subst hw
          exact ⟨List.mem_of_find?_eq_some hmc, rfl⟩
      · simp [hwk] at hem

/-- C7 witness: the invariant holds at a concrete sample draw and a
concrete live alert. -/
theorem c7_invariant_witness :
    ((⟨"Berlin", "severe", 3, "Thunderstorm Warning", "Immediate", none,
        some "2026-10-12"⟩ : NormalizedWarning).region ∈ target_cities
      ∧ (⟨"Berlin", "severe", 3, "Thunderstorm Warning", "Immediate", none,
          some "2026-10-12"⟩ : NormalizedWarning).score =
        scoreOf (⟨"Berlin", "severe", 3, "Thunderstorm Warning", "Immediate", none,
          some "2026-10-12"⟩ : NormalizedWarning).severity)
    ∧ ((⟨"Berlin", "minor", 1, "Unknown", "Unknown", some "sturm", none⟩ :
          NormalizedWarning).region ∈ target_cities
      ∧ (⟨"Berlin", "minor", 1, "Unknown", "Unknown", some "sturm", none⟩ :
          NormalizedWarning).score =
        scoreOf (⟨"Berlin", "minor", 1, "Unknown", "Unknown", some "sturm", none⟩ :
          NormalizedWarning).severity) :=
  ⟨c7_invariant.1 "2026-10-12" (fun _ => true) (fun _ => 0)
      ⟨"Berlin", "severe", 3, "Thunderstorm Warning", "Immediate", none,
        some "2026-10-12"⟩ (by decide),
   c7_invariant.2 ⟨some "Sturm", some "Berlin", none, none, none, none, none⟩
      ⟨"Berlin", "minor", 1, "Unknown", "Unknown", some "sturm", none⟩ (by decide)⟩

/-- C8: city resolution on `"münchen-zentrum"` yields `"München"`; whenever
it yields a city, that city is the first of the fixed list (in list order)
whose lower-cased name is a substring of the lower-cased region; and an
alert whose resolved region matches no target city is never emitted. -/
theorem c8_city_resolution :
    matched_city "münchen-zentrum" = some "München"
    ∧ (∀ region city, matched_city region = some city →
        ∃ l1 l2, target_cities = l1 ++ city :: l2
          ∧ containsSub (pyLower region) (pyLower city) = true
          ∧ ∀ c ∈ l1, containsSub (pyLower region) (pyLower c) = false)
    ∧ (∀ (item : RawAlert) (w : NormalizedWarning),
        matched_city (regionOf item) = none →
          processItem item ≠ ItemResult.emitted w) := by
  refine ⟨by decide, ?_, ?_⟩
  · intro region city h
    rw [matched_city] at h
    exact find?_first _ target_cities city h
  · intro item w hnone hem
    rw [processItem] at hem
    rcases hti : item.i18nTitle_de with _ | rawTitle
    · rw [hti] at hem; cases hem
    · rw [hti] at hem
      by_cases hwk : isWeatherTitle rawTitle = true
      · simp [hwk, hnone] at hem
      · simp [hwk] at hem

/-- C8 witness: the first-match characterization instantiated at
`"münchen-zentrum"`. -/
theorem c8_city_resolution_witness :
    ∃ l1 l2, target_cities = l1 ++ "München" :: l2
      ∧ containsSub (pyLower "münchen-zentrum") (pyLower "München") = true
      ∧ ∀ c ∈ l1, containsSub (pyLower "münchen-zentrum") (pyLower c) = false :=
  c8_city_resolution.2.1 "münchen-zentrum" "München" (by decide)

/-- C9: a title is classified weather-related exactly when its lower-cased
form contains some keyword of the fixed list; `"Gewitterwarnung"` is
weather-related and `"Schweinepest"` is not. -/
theorem c9_keyword_filter :
    (∀ title : String, isWeatherTitle title = true ↔
        ∃ k ∈ weather_keywords, containsSub (pyLower title) k = true)
    ∧ isWeatherTitle "Gewitterwarnung" = true
    ∧ isWeatherTitle "Schweinepest" = false := by
  refine ⟨?_, by decide, by decide⟩
  intro title
  rw [isWeatherTitle, List.any_eq_true]

/-- C9 witness: the characterization instantiated at `"Gewitterwarnung"`. -/
theorem c9_keyword_filter_witness :
    ∃ k ∈ weather_keywords, containsSub (pyLower "Gewitterwarnung") k = true :=
  (c9_keyword_filter.1 "Gewitterwarnung").mp (by decide)

/-- C10: a live alert that passes the keyword and city filters but carries
no severity field receives the default label `"minor"` and hence score 1,
not the unmapped-label score 0. -/
theorem c10_default_severity (item : RawAlert) (w : NormalizedWarning)
    (hsev : item.severity = none)
    (hem : processItem item = ItemResult.emitted w) :
    w.severity = "minor" ∧ w.score = 1 := by
  rw [processItem] at hem
  rcases hti : item.i18nTitle_de with _ | rawTitle
  · rw [hti] at hem; cases hem
  · rw [hti] at hem
    by_cases hwk : isWeatherTitle rawTitle = true
    · simp only [hwk, if_true] at hem
      rcases hmc : matched_city (regionOf item) with _ | city
      · rw [hmc] at hem; cases hem
      · rw [hmc] at hem
        simp only [hsev] at hem
        injection hem with hw
        subst hw
        exact ⟨rfl, rfl⟩
    · simp [hwk] at hem

/-- C10 witness: a concrete severity-less storm alert for Berlin is emitted
with label `"minor"` and score 1. -/
theorem c10_default_severity_witness :
    (⟨"Berlin", "minor", 1, "Unknown", "Unknown", some "sturm", none⟩ :
        NormalizedWarning).severity = "minor"
    ∧ (⟨"Berlin", "minor", 1, "Unknown", "Unknown", some "sturm", none⟩ :
        NormalizedWarning).score = 1 :=
  c10_default_severity ⟨some "Sturm", some "Berlin", none, none, none, none, none⟩
    ⟨"Berlin", "minor", 1, "Unknown", "Unknown", some "sturm", none⟩ rfl (by decide)

end WeatherMonitor
